import Mathlib

/-
Verification of the WokTalk recipe-playback engine against its specification.

The definitions below are a shallow embedding of the TypeScript sources:
  * frontend/src/components/YouTubePlayer.tsx  (parseTimestamp, loop monitoring)
  * frontend/src/constants/i18n.ts             (COMMAND_PATTERNS, MESSAGES)
  * frontend/src/store/recipeStore.ts          (data model and store actions)
  * frontend/src/components/VoiceControl.tsx   (matchCommand, handleCommand)
  * frontend/src/components/CookMode.tsx       (timer tick wiring, timer button)
JavaScript numbers are modelled as integers (all values the engine feeds
them are integral), with an explicit NaN marker where Number() coercion of
text can fail.
-/

namespace WokTalk

/-- Result of JavaScript Number() coercion and arithmetic: either a numeric
value or NaN.  The numeric values appearing in the player code are integral,
so the value is an Int. -/
inductive JSNum where
  | num : Int → JSNum
  | nan : JSNum
deriving DecidableEq, Repr

/-- Addition on JS numbers: NaN propagates. -/
def JSNum.add : JSNum → JSNum → JSNum
  | .num a, .num b => .num (a + b)
  | _, _ => .nan

/-- Multiplication on JS numbers: NaN propagates. -/
def JSNum.mul : JSNum → JSNum → JSNum
  | .num a, .num b => .num (a * b)
  | _, _ => .nan

/-- JS truthiness of a number (`!x` in the source): 0 and NaN are falsy. -/
def JSNum.truthy : JSNum → Bool
  | .num v => v != 0
  | .nan => false

/-- The comparison `x > 0` on a JS number; false for NaN. -/
def JSNum.gtZero : JSNum → Bool
  | .num v => 0 < v
  | .nan => false

/-- Value of a decimal digit string, most significant digit first. -/
def digitsVal (cs : List Char) : Nat :=
  cs.foldl (fun a c => 10 * a + (c.toNat - 48)) 0

/-- Model of JavaScript Number() on the strings this codebase feeds it:
a (possibly empty) string of decimal digits evaluates to its value
(Number("") is 0), and any other shape — which for the timestamp fields
means malformed text — is collapsed to NaN. -/
def jsNumber (cs : List Char) : JSNum :=
  if cs.all Char.isDigit then .num (digitsVal cs) else .nan

/-- List-of-characters model of JavaScript String.split(':'):
"a:b" ↦ ["a","b"], "" ↦ [""], ":" ↦ ["",""]. -/
def splitCols : List Char → List (List Char)
  | [] => [[]]
  | c :: rest =>
    if c = ':' then [] :: splitCols rest
    else
      match splitCols rest with
      | [] => [[c]]
      | g :: gs => (c :: g) :: gs

/-- YouTubePlayer.tsx parseTimestamp: split on ':', map Number; two parts
give MM:SS, three parts give HH:MM:SS, any other part count returns 0. -/
def parseTimestamp (timestamp : String) : JSNum :=
  let parts := (splitCols timestamp.data).map jsNumber
  match parts with
  | [m, s] => (m.mul (.num 60)).add s
  | [h, m, s] => ((h.mul (.num 3600)).add (m.mul (.num 60))).add s
  | _ => .num 0

/-- Guard of the loop-monitoring effect in YouTubePlayer.tsx
(`if (!autoLoop || !endSeconds || !playerRef.current) return`): position
polling runs only when autoLoop is set and endSeconds is truthy (the
player-handle presence is an external condition not modelled here). -/
def loopPollActive (autoLoop : Bool) (endSeconds : JSNum) : Bool :=
  autoLoop && endSeconds.truthy

/-- Guard of the ENDED branch of onStateChange in YouTubePlayer.tsx
(`if (autoLoop && startSeconds > 0)`): whether the passive end-of-asset
handler seeks back to the start. -/
def endedLoopSeeks (autoLoop : Bool) (startSeconds : JSNum) : Bool :=
  autoLoop && startSeconds.gtZero

/-- One iteration of the loop-monitoring interval callback: given the
position reported by getCurrentTime, the seekTo target issued, if any
(`if (currentTime >= endSeconds) seekTo(startSeconds, true)`). -/
def pollOnce (startSeconds endSeconds pos : Int) : Option Int :=
  if endSeconds ≤ pos then some startSeconds else none

/-- Seeks issued over a sequence of successive polled position reports. -/
def pollRun (startSeconds endSeconds : Int) : List Int → List Int
  | [] => []
  | p :: ps =>
    match pollOnce startSeconds endSeconds p with
    | some t => t :: pollRun startSeconds endSeconds ps
    | none => pollRun startSeconds endSeconds ps

/-- Languages supported by the i18n constants (constants/i18n.ts). -/
inductive Language where
  | en : Language
  | hk : Language
deriving DecidableEq, Repr

/-- The command intents, i.e. the keys of COMMAND_PATTERNS in
constants/i18n.ts. -/
inductive Command where
  | next : Command
  | prev : Command
  | repeatCmd : Command
  | timer : Command
  | stop : Command
deriving DecidableEq, Repr

/-- COMMAND_PATTERNS from constants/i18n.ts, in object-key insertion order
(the order Object.entries iterates). The source key for repeatCmd is
spelled "repeat", which is not a usable Lean identifier. -/
def COMMAND_PATTERNS : List (Command × List String) :=
  [ (.next, ["下一步", "下一个", "繼續", "继续", "next", "continue"]),
    (.prev, ["上一步", "返回", "前一步", "previous", "back"]),
    (.repeatCmd, ["重複", "重复", "再講", "再说", "repeat", "again"]),
    (.timer, ["計時", "计时", "開始計時", "timer", "start timer"]),
    (.stop, ["停止", "暫停", "停", "stop", "pause"]) ]

/-- Whether the first list is an initial segment of the second. -/
def leadsWith : List Char → List Char → Bool
  | [], _ => true
  | _ :: _, [] => false
  | a :: as, b :: bs => a = b && leadsWith as bs

/-- Whether the pattern occurs as a contiguous sublist of the haystack;
models JavaScript String.includes (true for the empty pattern). -/
def hasSub (pat : List Char) : List Char → Bool
  | [] => leadsWith pat []
  | c :: t => leadsWith pat (c :: t) || hasSub pat t

/-- Lowercasing a character as JavaScript toLowerCase does on the alphabets
this app uses: ASCII letters are folded, CJK characters map to themselves. -/
def jsToLower (cs : List Char) : List Char :=
  cs.map Char.toLower

/-- Drop leading whitespace characters. -/
def dropLeadingWs : List Char → List Char
  | [] => []
  | c :: t => if c.isWhitespace then dropLeadingWs t else c :: t

/-- Model of JavaScript String.trim: strip whitespace from both ends. -/
def trimWs (cs : List Char) : List Char :=
  ((dropLeadingWs ((dropLeadingWs cs).reverse)).reverse)

/-- Inner loop of matchCommand: walk the pattern table in order and return
the first command one of whose lowercased phrases occurs in the normalized
transcript. -/
def matchIn (normalized : List Char) : List (Command × List String) → Option Command
  | [] => none
  | (cmd, patterns) :: rest =>
    if patterns.any (fun pattern => hasSub (jsToLower pattern.data) normalized) then some cmd
    else matchIn normalized rest

/-- VoiceControl.tsx matchCommand: lowercase and trim the transcript, then
first-match-wins case-insensitive substring search over COMMAND_PATTERNS. -/
def matchCommand (transcript : String) : Option Command :=
  let normalized := trimWs (jsToLower transcript.data)
  matchIn normalized COMMAND_PATTERNS

/-- The per-command spoken-feedback entries of MESSAGES in constants/i18n.ts
(MESSAGES[language][command]); the full MESSAGES object also carries UI label
strings and functions the dispatcher never reads. -/
def commandFeedback : Language → Command → String
  | .en, .next => "Next"
  | .en, .prev => "Previous"
  | .en, .repeatCmd => "Repeat"
  | .en, .timer => "Timer"
  | .en, .stop => "Stop"
  | .hk, .next => "下一步"
  | .hk, .prev => "上一步"
  | .hk, .repeatCmd => "重複"
  | .hk, .timer => "計時"
  | .hk, .stop => "停止"

/-- Ingredient record (recipeStore.ts). -/
structure Ingredient where
  name_en : String
  name_hk : String
  quantity : String
  optional : Bool
  category : Option String
deriving DecidableEq, Repr

/-- PrepTask record (recipeStore.ts). -/
structure PrepTask where
  task_en : String
  task_hk : String
  video_timestamp : Option String
  is_time_sensitive : Bool
deriving DecidableEq, Repr

/-- VisualVerification record (recipeStore.ts); status is one of the string
literals "confirmed" | "inferred" | "ambiguous", and the JS float confidence
is modelled as a rational. -/
structure VisualVerification where
  status : String
  confidence : Rat
  details : String
  fallback_note : Option String
deriving DecidableEq, Repr

/-- TimerConfig record (recipeStore.ts): duration_seconds is number | null. -/
structure TimerConfig where
  has_timer : Bool
  duration_seconds : Option Int
  visual_cue : Option String
deriving DecidableEq, Repr

/-- RecipeStep record (recipeStore.ts); timestamps stay in their MM:SS or
HH:MM:SS text form until the player parses them. -/
structure RecipeStep where
  step_id : Int
  timestamp_start : String
  timestamp_end : String
  instruction_en : String
  instruction_hk : String
  visual_verification : VisualVerification
  timer_config : TimerConfig
deriving DecidableEq, Repr

/-- RecipeMeta record (recipeStore.ts); difficulty is one of the string
literals "Easy" | "Medium" | "Hard". -/
structure RecipeMeta where
  title_en : String
  title_hk : String
  difficulty : String
  total_time_minutes : Int
  servings : Int
deriving DecidableEq, Repr

/-- CostEstimate record (recipeStore.ts); JS floats as rationals. -/
structure CostEstimate where
  total_tokens : Int
  estimated_cost_usd : Rat
  savings_percent : Rat
deriving DecidableEq, Repr

/-- Recipe record (recipeStore.ts); processing_status is one of the string
literals "success" | "partial" | "failed". -/
structure Recipe where
  processing_status : String
  youtube_id : String
  frames_analyzed : Int
  cost_estimate : CostEstimate
  recipe_meta : RecipeMeta
  ingredients : List Ingredient
  prep_tasks : Option (List PrepTask)
  steps : List RecipeStep
  error_message : Option String
deriving DecidableEq, Repr

/-- UI mode of the store (recipeStore.ts). -/
inductive Mode where
  | ingredients : Mode
  | prep : Mode
  | cook : Mode
deriving DecidableEq, Repr

/-- The data fields of the zustand store state (RecipeState in
recipeStore.ts); the store's action closures become the functions below. -/
structure RecipeState where
  currentRecipe : Option Recipe
  isLoading : Bool
  error : Option String
  currentStepIndex : Int
  mode : Mode
  isTimerRunning : Bool
  timerSeconds : Int
  showExplainability : Bool
  isListening : Bool
  expertMode : Bool
  language : Language
deriving DecidableEq, Repr

/-- setRecipe: store the recipe, reset the step index to 0 and clear the
error; every other field — including isTimerRunning, timerSeconds and
isListening — is left as it was. -/
def setRecipe (recipe : Recipe) (s : RecipeState) : RecipeState :=
  { s with currentRecipe := some recipe, currentStepIndex := 0, error := none }

/-- clearRecipe: drop the recipe and reset the step index. -/
def clearRecipe (s : RecipeState) : RecipeState :=
  { s with currentRecipe := none, currentStepIndex := 0 }

/-- nextStep: increment the index only when a recipe is loaded and the index
is below steps.length - 1. -/
def nextStep (s : RecipeState) : RecipeState :=
  match s.currentRecipe with
  | some r =>
    if s.currentStepIndex < (r.steps.length : Int) - 1 then
      { s with currentStepIndex := s.currentStepIndex + 1 }
    else s
  | none => s

/-- prevStep: decrement the index only when it is above 0. -/
def prevStep (s : RecipeState) : RecipeState :=
  if 0 < s.currentStepIndex then
    { s with currentStepIndex := s.currentStepIndex - 1 }
  else s

/-- goToStep: set the index only when a recipe is loaded and the index is
inside [0, steps.length). -/
def goToStep (index : Int) (s : RecipeState) : RecipeState :=
  match s.currentRecipe with
  | some r =>
    if 0 ≤ index ∧ index < (r.steps.length : Int) then
      { s with currentStepIndex := index }
    else s
  | none => s

/-- startTimer: set the counter to the requested seconds and mark running. -/
def startTimer (seconds : Int) (s : RecipeState) : RecipeState :=
  { s with timerSeconds := seconds, isTimerRunning := true }

/-- stopTimer: mark not running; the counter keeps its value. -/
def stopTimer (s : RecipeState) : RecipeState :=
  { s with isTimerRunning := false }

/-- tickTimer: while running and positive, decrement; when running and
exactly zero, stop and fire the one-shot "time's up" TTS utterance (the
returned flag records that the notification fired; the in-browser
speechSynthesis guard is an environment condition). -/
def tickTimer (s : RecipeState) : RecipeState × Bool :=
  if s.isTimerRunning = true ∧ 0 < s.timerSeconds then
    ({ s with timerSeconds := s.timerSeconds - 1 }, false)
  else if s.isTimerRunning = true ∧ s.timerSeconds = 0 then
    ({ s with isTimerRunning := false }, true)
  else (s, false)

/-- setListening (recipeStore.ts). -/
def setListening (listening : Bool) (s : RecipeState) : RecipeState :=
  { s with isListening := listening }

/-- The one-second tick loop of CookMode.tsx applied n times, returning the
final state and how many "time's up" notifications fired along the way. -/
def runTicks : Nat → RecipeState → RecipeState × Nat
  | 0, s => (s, 0)
  | Nat.succ n, s =>
    let t := tickTimer s
    let r := runTicks n t.1
    (r.1, (if t.2 then 1 else 0) + r.2)

/-- A navigation call: nextStep or prevStep. -/
inductive NavOp where
  | next : NavOp
  | prev : NavOp
deriving DecidableEq, Repr

/-- Apply one navigation call to the store. -/
def applyNav : NavOp → RecipeState → RecipeState
  | .next, s => nextStep s
  | .prev, s => prevStep s

/-- Apply a finite sequence of nextStep/prevStep calls in order. -/
def runNav : List NavOp → RecipeState → RecipeState
  | [], s => s
  | op :: ops, s => runNav ops (applyNav op s)

/-- VoiceControl.tsx handleCommand as mounted by CookMode (which passes no
onCommand callback): next and prev drive the store's navigation actions,
while repeat, timer and stop only speak their confirmation — the switch
never touches the timer state. Returns the new store state and the spoken
feedback utterances. -/
def handleCommand (language : Language) (command : Command) (s : RecipeState) :
    RecipeState × List String :=
  match command with
  | .next => (nextStep s, [commandFeedback language .next])
  | .prev => (prevStep s, [commandFeedback language .prev])
  | .repeatCmd => (s, [commandFeedback language .repeatCmd])
  | .timer => (s, [commandFeedback language .timer])
  | .stop => (s, [commandFeedback language .stop])

/-- JavaScript `a || b` on an optional number (null, 0 and NaN are falsy). -/
def jsOrDefault (a : Option Int) (b : Int) : Int :=
  match a with
  | some v => if v = 0 then b else v
  | none => b

/-- The Start Timer button of CookMode.tsx:
startTimer(currentStep.timer_config.duration_seconds || 60). -/
def cookStartTimerClick (step : RecipeStep) (s : RecipeState) : RecipeState :=
  startTimer (jsOrDefault step.timer_config.duration_seconds 60) s

/-- A concrete recipe step used by the concrete instances below. -/
def sampleStep (i : Int) : RecipeStep :=
  { step_id := i
    timestamp_start := "00:10"
    timestamp_end := "00:20"
    instruction_en := "Stir fry"
    instruction_hk := "快炒"
    visual_verification :=
      { status := "confirmed", confidence := 1, details := "golden edges", fallback_note := none }
    timer_config := { has_timer := true, duration_seconds := some 30, visual_cue := none } }

/-- A concrete three-step recipe. -/
def sampleRecipe : Recipe :=
  { processing_status := "success"
    youtube_id := "dQw4w9WgXcQ"
    frames_analyzed := 12
    cost_estimate := { total_tokens := 1000, estimated_cost_usd := 0, savings_percent := 40 }
    recipe_meta :=
      { title_en := "Fried Rice", title_hk := "炒飯", difficulty := "Easy",
        total_time_minutes := 20, servings := 2 }
    ingredients := []
    prep_tasks := none
    steps := [sampleStep 1, sampleStep 2, sampleStep 3]
    error_message := none }

/-- A concrete store state with the sample recipe loaded at step 0. -/
def sampleState : RecipeState :=
  { currentRecipe := some sampleRecipe
    isLoading := false
    error := none
    currentStepIndex := 0
    mode := .cook
    isTimerRunning := false
    timerSeconds := 0
    showExplainability := false
    isListening := false
    expertMode := false
    language := .en }

/-- A concrete state caught mid-session: timer running and mic listening. -/
def busyState : RecipeState :=
  { sampleState with isTimerRunning := true, timerSeconds := 5, isListening := true }

/-- Every state reachable by navigation from a well-indexed state keeps the
recipe and an index inside [0, steps.length). -/
lemma runNav_preserves (r : Recipe) (ops : List NavOp) :
    ∀ s : RecipeState, s.currentRecipe = some r →
      0 ≤ s.currentStepIndex → s.currentStepIndex < (r.steps.length : Int) →
      (runNav ops s).currentRecipe = some r ∧
      0 ≤ (runNav ops s).currentStepIndex ∧
      (runNav ops s).currentStepIndex < (r.steps.length : Int) := by
  induction ops with
  | nil => intro s h0 h1 h2; exact ⟨h0, h1, h2⟩
  | cons op ops ih =>
    intro s h0 h1 h2
    cases op with
    | next =>
      simp only [runNav, applyNav]
      by_cases h : s.currentStepIndex < (r.steps.length : Int) - 1
      · have hn : nextStep s = { s with currentStepIndex := s.currentStepIndex + 1 } := by
          simp [nextStep, h0, h]
        rw [hn]
        refine ih _ h0 ?_ ?_
        · show (0 : Int) ≤ s.currentStepIndex + 1
          omega
        · show s.currentStepIndex + 1 < (r.steps.length : Int)
          omega
      · have hn : nextStep s = s := by simp [nextStep, h0, h]
        rw [hn]; exact ih _ h0 h1 h2
    | prev =>
      simp only [runNav, applyNav]
      by_cases h : 0 < s.currentStepIndex
      · have hp : prevStep s = { s with currentStepIndex := s.currentStepIndex - 1 } := by
          simp [prevStep, h]
        rw [hp]
        refine ih _ h0 ?_ ?_
        · show (0 : Int) ≤ s.currentStepIndex - 1
          omega
        · show s.currentStepIndex - 1 < (r.steps.length : Int)
          omega
      · have hp : prevStep s = s := by simp [prevStep, h]
        rw [hp]; exact ih _ h0 h1 h2

/-- A tick on a running timer with a positive counter decrements it. -/
lemma tickTimer_run_pos (s : RecipeState) (h1 : s.isTimerRunning = true)
    (h2 : 0 < s.timerSeconds) :
    tickTimer s = ({ s with timerSeconds := s.timerSeconds - 1 }, false) := by
  simp [tickTimer, h1, h2]

/-- A tick on a running timer at zero stops it and fires the notification. -/
lemma tickTimer_fire (s : RecipeState) (h1 : s.isTimerRunning = true)
    (h2 : s.timerSeconds = 0) :
    tickTimer s = ({ s with isTimerRunning := false }, true) := by
  simp [tickTimer, h1, h2]

/-- A tick on a stopped timer does nothing. -/
lemma tickTimer_stopped (s : RecipeState) (h1 : s.isTimerRunning = false) :
    tickTimer s = (s, false) := by
  simp [tickTimer, h1]

/-- Any number of ticks on a stopped timer does nothing and fires nothing. -/
lemma runTicks_stopped (k : Nat) :
    ∀ s : RecipeState, s.isTimerRunning = false → runTicks k s = (s, 0) := by
  induction k with
  | zero => intro s _; rfl
  | succ n ih =>
    intro s h
    simp [runTicks, tickTimer_stopped s h, ih s h]

/-- While at least j seconds remain on a running timer, j ticks decrement
the counter by j and fire nothing. -/
lemma runTicks_countdown (j : Nat) :
    ∀ s : RecipeState, s.isTimerRunning = true → (j : Int) ≤ s.timerSeconds →
      runTicks j s = ({ s with timerSeconds := s.timerSeconds - (j : Int) }, 0) := by
  induction j with
  | zero => intro s h1 h2; simp [runTicks]
  | succ n ih =>
    intro s h1 h2
    have hpos : 0 < s.timerSeconds := by
      have : ((n : Int) + 1) ≤ s.timerSeconds := by push_cast at h2; omega
      omega
    have hle : (n : Int) ≤ s.timerSeconds - 1 := by
      have : ((n : Int) + 1) ≤ s.timerSeconds := by push_cast at h2; omega
      omega
    have harith : s.timerSeconds - 1 - (n : Int) = s.timerSeconds - ((n : Nat) + 1 : Int) := by
      ring
    simp only [runTicks]
    rw [tickTimer_run_pos s h1 hpos]
    rw [ih { s with timerSeconds := s.timerSeconds - 1 } h1 hle]
    simp [harith]

/-- Ticks compose: a + b ticks are a ticks then b more, with counts added. -/
lemma runTicks_split (a b : Nat) :
    ∀ s : RecipeState,
      runTicks (a + b) s =
        ((runTicks b (runTicks a s).1).1,
          (runTicks a s).2 + (runTicks b (runTicks a s).1).2) := by
  induction a with
  | zero => intro s; simp [runTicks]
  | succ n ih =>
    intro s
    have hidx : n + 1 + b = (n + b) + 1 := by omega
    rw [hidx]
    simp only [runTicks]
    rw [ih (tickTimer s).1]
    simp [Nat.add_assoc]

/-- On a running timer at zero, 1 + k ticks stop it and fire exactly once. -/
lemma runTicks_expire (k : Nat) (s : RecipeState) (h1 : s.isTimerRunning = true)
    (h2 : s.timerSeconds = 0) :
    runTicks (k + 1) s = ({ s with isTimerRunning := false }, 1) := by
  simp only [runTicks]
  rw [tickTimer_fire s h1 h2]
  rw [runTicks_stopped k { s with isTimerRunning := false } rfl]
  simp

/-- Digit characters are never the separator. -/
lemma no_colon_of_digits (cs : List Char) (h : cs.all Char.isDigit = true) : ':' ∉ cs := by
  intro hm
  have hd := List.all_eq_true.mp h ':' hm
  exact absurd hd (by decide)

/-- Splitting a colon-free chunk yields just that chunk. -/
lemma splitCols_no_colon (a : List Char) (ha : ':' ∉ a) : splitCols a = [a] := by
  induction a with
  | nil => rfl
  | cons c t ih =>
    have hc : ¬ c = ':' := fun h => ha (by simp [h])
    have ht : ':' ∉ t := fun h => ha (List.mem_cons_of_mem _ h)
    simp [splitCols, hc, ih ht]

/-- Splitting peels a leading colon-free chunk before the first separator. -/
lemma splitCols_sep (a b : List Char) (ha : ':' ∉ a) :
    splitCols (a ++ ':' :: b) = a :: splitCols b := by
  induction a with
  | nil => simp [splitCols]
  | cons c t ih =>
    have hc : ¬ c = ':' := fun h => ha (by simp [h])
    have ht : ':' ∉ t := fun h => ha (List.mem_cons_of_mem _ h)
    simp [splitCols, hc, ih ht]

/-- Number() on a digit string is its decimal value. -/
lemma jsNumber_digits (cs : List Char) (h : cs.all Char.isDigit = true) :
    jsNumber cs = .num (digitsVal cs) := by
  simp [jsNumber, h]


/-- C1: for every recipe with at least one step and every finite sequence of
nextStep/prevStep calls starting from currentStepIndex = 0, the index stays
inside [0, steps.length - 1] after every call (every prefix of a sequence is
itself a sequence), and no call errors (both actions are total functions);
nextStep increments exactly when the index is below steps.length - 1 and is
otherwise a no-op, prevStep decrements exactly when the index is above 0 and
is otherwise a no-op. -/
theorem nav_stays_in_bounds (r : Recipe) (s : RecipeState) (ops : List NavOp)
    (hrec : s.currentRecipe = some r) (hN : 1 ≤ r.steps.length)
    (hstart : s.currentStepIndex = 0) :
    (0 ≤ (runNav ops s).currentStepIndex ∧
      (runNav ops s).currentStepIndex ≤ (r.steps.length : Int) - 1) ∧
    (∀ t : RecipeState, t.currentRecipe = some r →
      (t.currentStepIndex < (r.steps.length : Int) - 1 →
        nextStep t = { t with currentStepIndex := t.currentStepIndex + 1 }) ∧
      (¬ t.currentStepIndex < (r.steps.length : Int) - 1 → nextStep t = t)) ∧
    (∀ t : RecipeState,
      (0 < t.currentStepIndex →
        prevStep t = { t with currentStepIndex := t.currentStepIndex - 1 }) ∧
      (¬ 0 < t.currentStepIndex → prevStep t = t)) := by
  have hlen : (1 : Int) ≤ (r.steps.length : Int) := by exact_mod_cast hN
  refine ⟨?_, ?_, ?_⟩
  · obtain ⟨-, hlo, hhi⟩ :=
      runNav_preserves r ops s hrec (by omega) (by rw [hstart]; omega)
    exact ⟨hlo, by omega⟩
  · intro t ht
    constructor
    · intro h; simp [nextStep, ht, h]
    · intro h; simp [nextStep, ht, h]
  · intro t
    constructor
    · intro h; simp [prevStep, h]
    · intro h; simp [prevStep, h]

/-- Witness for C1: on the loaded three-step sample recipe, the sequence
next, next, next, prev keeps the index inside [0, 2]. -/
theorem nav_stays_in_bounds_witness :
    0 ≤ (runNav [NavOp.next, NavOp.next, NavOp.next, NavOp.prev] sampleState).currentStepIndex ∧
    (runNav [NavOp.next, NavOp.next, NavOp.next, NavOp.prev] sampleState).currentStepIndex ≤
      (sampleRecipe.steps.length : Int) - 1 :=
  (nav_stays_in_bounds sampleRecipe sampleState
    [NavOp.next, NavOp.next, NavOp.next, NavOp.prev] rfl (by decide) rfl).1

/-- C2 (code evaluation at the failing input): dispatching the voice timer
or stop intent through handleCommand leaves the whole store state unchanged
and only produces the spoken confirmation — the switch cases for timer and
stop never call startTimer or stopTimer, and CookMode mounts VoiceControl
without an onCommand callback, so nothing downstream acts either.  The
claimed behaviour (starting the timer with the step duration, 60 as the
fallback) exists only on the CookMode button path, cookStartTimerClick. -/
theorem voice_timer_stop_touch_nothing (lang : Language) (s : RecipeState) :
    (handleCommand lang Command.timer s).1 = s ∧
    (handleCommand lang Command.stop s).1 = s ∧
    (handleCommand lang Command.timer s).2 = [commandFeedback lang Command.timer] ∧
    (handleCommand lang Command.stop s).2 = [commandFeedback lang Command.stop] :=
  ⟨rfl, rfl, rfl, rfl⟩

/-- C3 counterexample: with D = 1, after startTimer(1) and exactly 1 tick
the timer is still running and no notification has fired, contradicting the
claim that D ticks suffice. -/
theorem timer_d_ticks_counterexample :
    ¬ ((runTicks 1 (startTimer 1 sampleState)).1.isTimerRunning = false ∧
       (runTicks 1 (startTimer 1 sampleState)).2 = 1) := by
  decide

/-- C3 (amended): for every duration D ≥ 1, the first D ticks after
startTimer(D) only count down — the timer is still running and no
notification has fired after any j ≤ D ticks — and after D + 1 ticks (and
any number of further ticks) the timer is stopped and exactly one "time's
up" notification has fired. -/
theorem timer_fires_after_d_plus_one (s : RecipeState) (D : Nat) (hD : 1 ≤ D) :
    (∀ j : Nat, j ≤ D →
      (runTicks j (startTimer (D : Int) s)).1.isTimerRunning = true ∧
      (runTicks j (startTimer (D : Int) s)).2 = 0) ∧
    (∀ k : Nat,
      (runTicks (D + 1 + k) (startTimer (D : Int) s)).1.isTimerRunning = false ∧
      (runTicks (D + 1 + k) (startTimer (D : Int) s)).2 = 1) := by
  constructor
  · intro j hj
    have h := runTicks_countdown j (startTimer (D : Int) s) rfl
      (by show (j : Int) ≤ (D : Int); exact_mod_cast hj)
    rw [h]
    exact ⟨rfl, rfl⟩
  · intro k
    have hD0 : runTicks D (startTimer (D : Int) s) =
        ({ startTimer (D : Int) s with timerSeconds := 0 }, 0) := by
      have h := runTicks_countdown D (startTimer (D : Int) s) rfl (by exact le_refl _)
      rw [h]
      have : ((D : Int) - (D : Int)) = 0 := by omega
      rw [show (startTimer (D : Int) s).timerSeconds = (D : Int) from rfl, this]
    have hidx : D + 1 + k = D + (k + 1) := by omega
    rw [hidx, runTicks_split D (k + 1) (startTimer (D : Int) s), hD0]
    rw [runTicks_expire k { startTimer (D : Int) s with timerSeconds := 0 } rfl rfl]
    exact ⟨rfl, rfl⟩

/-- Witness for C3 (amended): with D = 1 on the sample state, one tick
leaves the timer running with nothing fired, and two ticks stop it with
exactly one notification. -/
theorem timer_fires_after_d_plus_one_witness :
    ((runTicks 1 (startTimer 1 sampleState)).1.isTimerRunning = true ∧
     (runTicks 1 (startTimer 1 sampleState)).2 = 0) ∧
    ((runTicks 2 (startTimer 1 sampleState)).1.isTimerRunning = false ∧
     (runTicks 2 (startTimer 1 sampleState)).2 = 1) :=
  ⟨(timer_fires_after_d_plus_one sampleState 1 (by decide)).1 1 (by decide),
   (timer_fires_after_d_plus_one sampleState 1 (by decide)).2 0⟩

/-- C4 counterexample: loading a recipe over a state whose timer is running
and whose mic is listening leaves both on — setRecipe does not stop the
timer or the listening session. -/
theorem setRecipe_reset_counterexample :
    ¬ ((setRecipe sampleRecipe busyState).isTimerRunning = false ∧
       (setRecipe sampleRecipe busyState).isListening = false) := by
  decide

/-- C4 (amended): setRecipe stores the recipe, resets currentStepIndex to 0
and clears the error, and leaves every other field — in particular
isTimerRunning, timerSeconds and isListening — exactly as it was. -/
theorem setRecipe_resets_navigation_only (r : Recipe) (s : RecipeState) :
    (setRecipe r s).currentRecipe = some r ∧
    (setRecipe r s).currentStepIndex = 0 ∧
    (setRecipe r s).error = none ∧
    (setRecipe r s).isTimerRunning = s.isTimerRunning ∧
    (setRecipe r s).timerSeconds = s.timerSeconds ∧
    (setRecipe r s).isListening = s.isListening ∧
    (setRecipe r s).isLoading = s.isLoading ∧
    (setRecipe r s).mode = s.mode ∧
    (setRecipe r s).showExplainability = s.showExplainability ∧
    (setRecipe r s).expertMode = s.expertMode ∧
    (setRecipe r s).language = s.language :=
  ⟨rfl, rfl, rfl, rfl, rfl, rfl, rfl, rfl, rfl, rfl, rfl⟩

/-- C5 counterexample: over the polled reports 5, 12, 19, 20, 21 with step
window [10, 20], the monitoring loop issues the seek twice (at the reports
20 and 21), not exactly once — there is no latch after the first seek. -/
theorem loop_poll_exactly_once_counterexample :
    ¬ (pollRun 10 20 [5, 12, 19, 20, 21]).length = 1 := by
  decide

/-- C5 (amended): with step window [10, 20], the poll issues a seek-to-10 at
every report that reaches 20 and none below: over 5, 12, 19 no seek is
issued, the first seek is triggered at the first report ≥ 20 (the report of
20), and the trailing report of 21 triggers one more, for two in total. -/
theorem loop_poll_seek_per_report :
    pollRun 10 20 [5, 12, 19] = [] ∧
    pollRun 10 20 [5, 12, 19, 20] = [10] ∧
    pollRun 10 20 [5, 12, 19, 20, 21] = [10, 10] ∧
    (∀ pos : Int, pos < 20 → pollOnce 10 20 pos = none) ∧
    (∀ pos : Int, 20 ≤ pos → pollOnce 10 20 pos = some 10) := by
  refine ⟨by decide, by decide, by decide, ?_, ?_⟩
  · intro pos h
    unfold pollOnce
    rw [if_neg (by omega)]
  · intro pos h
    unfold pollOnce
    rw [if_pos h]

/-- Witness for C5 (amended): the report of 19 issues no seek and the
report of 20 issues the seek to 10. -/
theorem loop_poll_seek_per_report_witness :
    pollOnce 10 20 19 = none ∧ pollOnce 10 20 20 = some 10 :=
  ⟨loop_poll_seek_per_report.2.2.2.1 19 (by decide),
   loop_poll_seek_per_report.2.2.2.2 20 (by decide)⟩

/-- C6: the interpreter lowercases and trims the transcript and matches the
phrase table by substring, first match in table order winning, with no
effect on anything when nothing matches: "please go next" yields next,
"go back now" yields prev (the previous intent), "banana" yields none,
normalization makes " Go BACK now " yield prev, and "next back" — which
contains phrases of both next and prev — yields next because next comes
first in COMMAND_PATTERNS. -/
theorem matchCommand_interprets :
    matchCommand "please go next" = some Command.next ∧
    matchCommand "go back now" = some Command.prev ∧
    matchCommand "banana" = none ∧
    matchCommand " Go BACK now " = some Command.prev ∧
    matchCommand "next back" = some Command.next := by
  decide

/-- C7: parseTimestamp maps well-formed MM:SS text to M*60+S seconds and
well-formed HH:MM:SS text to H*3600+M*60+S seconds, for all digit-string
fields (of any length, hence all non-negative integer field values). -/
theorem parseTimestamp_wellformed (hh mm ss : List Char)
    (h1 : hh.all Char.isDigit = true) (h2 : mm.all Char.isDigit = true)
    (h3 : ss.all Char.isDigit = true) :
    parseTimestamp (String.mk (mm ++ ':' :: ss)) =
      .num ((digitsVal mm : Int) * 60 + (digitsVal ss : Int)) ∧
    parseTimestamp (String.mk (hh ++ ':' :: (mm ++ ':' :: ss))) =
      .num ((digitsVal hh : Int) * 3600 + (digitsVal mm : Int) * 60 + (digitsVal ss : Int)) := by
  have c1 := no_colon_of_digits hh h1
  have c2 := no_colon_of_digits mm h2
  have c3 := no_colon_of_digits ss h3
  have hd2 : (String.mk (mm ++ ':' :: ss)).data = mm ++ ':' :: ss := rfl
  have hd3 : (String.mk (hh ++ ':' :: (mm ++ ':' :: ss))).data =
      hh ++ ':' :: (mm ++ ':' :: ss) := rfl
  constructor
  · simp only [parseTimestamp, hd2, splitCols_sep mm ss c2, splitCols_no_colon ss c3,
      List.map, jsNumber_digits mm h2, jsNumber_digits ss h3, JSNum.mul, JSNum.add]
  · simp only [parseTimestamp, hd3, splitCols_sep hh (mm ++ ':' :: ss) c1,
      splitCols_sep mm ss c2, splitCols_no_colon ss c3, List.map,
      jsNumber_digits hh h1, jsNumber_digits mm h2, jsNumber_digits ss h3,
      JSNum.mul, JSNum.add]

/-- Witness for C7: "02:05" parses to 125 seconds and "1:02:05" to 3725. -/
theorem parseTimestamp_wellformed_witness :
    parseTimestamp "02:05" = .num 125 ∧ parseTimestamp "1:02:05" = .num 3725 := by
  have h := parseTimestamp_wellformed ['1'] ['0', '2'] ['0', '5']
    (by decide) (by decide) (by decide)
  exact ⟨h.1, h.2⟩

/-- C8: with a recipe loaded, goToStep with any index outside
[0, steps.length - 1] returns the state unchanged (and raises nothing, being
a total function), and with any index inside the range it sets
currentStepIndex to that index and nothing else. -/
theorem goToStep_in_range_or_noop (r : Recipe) (s : RecipeState) (index : Int)
    (hrec : s.currentRecipe = some r) :
    ((index < 0 ∨ (r.steps.length : Int) ≤ index) → goToStep index s = s) ∧
    (0 ≤ index → index < (r.steps.length : Int) →
      goToStep index s = { s with currentStepIndex := index }) := by
  constructor
  · intro h
    simp only [goToStep, hrec]
    rw [if_neg (by omega)]
  · intro hlo hhi
    simp only [goToStep, hrec]
    rw [if_pos ⟨hlo, hhi⟩]

/-- Witness for C8: on the loaded three-step sample recipe, goToStep 5 is
the identity and goToStep 2 moves only the index. -/
theorem goToStep_in_range_or_noop_witness :
    goToStep 5 sampleState = sampleState ∧
    goToStep 2 sampleState = { sampleState with currentStepIndex := 2 } :=
  ⟨(goToStep_in_range_or_noop sampleRecipe sampleState 5 rfl).1 (Or.inr (by decide)),
   (goToStep_in_range_or_noop sampleRecipe sampleState 2 rfl).2 (by decide) (by decide)⟩

/-- C9: startTimer sets the counter to the requested duration and running to
true; stopTimer sets running to false and leaves the counter untouched; and
both leave every other field of the store unchanged. -/
theorem timer_start_stop_frame (s : RecipeState) (seconds : Int) :
    (startTimer seconds s).timerSeconds = seconds ∧
    (startTimer seconds s).isTimerRunning = true ∧
    (stopTimer s).isTimerRunning = false ∧
    (stopTimer s).timerSeconds = s.timerSeconds ∧
    (startTimer seconds s).currentRecipe = s.currentRecipe ∧
    (startTimer seconds s).isLoading = s.isLoading ∧
    (startTimer seconds s).error = s.error ∧
    (startTimer seconds s).currentStepIndex = s.currentStepIndex ∧
    (startTimer seconds s).mode = s.mode ∧
    (startTimer seconds s).showExplainability = s.showExplainability ∧
    (startTimer seconds s).isListening = s.isListening ∧
    (startTimer seconds s).expertMode = s.expertMode ∧
    (startTimer seconds s).language = s.language ∧
    (stopTimer s).currentRecipe = s.currentRecipe ∧
    (stopTimer s).isLoading = s.isLoading ∧
    (stopTimer s).error = s.error ∧
    (stopTimer s).currentStepIndex = s.currentStepIndex ∧
    (stopTimer s).mode = s.mode ∧
    (stopTimer s).showExplainability = s.showExplainability ∧
    (stopTimer s).isListening = s.isListening ∧
    (stopTimer s).expertMode = s.expertMode ∧
    (stopTimer s).language = s.language :=
  ⟨rfl, rfl, rfl, rfl, rfl, rfl, rfl, rfl, rfl, rfl, rfl, rfl, rfl, rfl, rfl, rfl, rfl, rfl,
    rfl, rfl, rfl, rfl⟩

/-- C10: a timestamp whose colon-split does not have exactly two or three
parts parses to 0 rather than erroring, and a parsed value of 0 disables
both looping mechanisms: the polling guard (0 is falsy as endSeconds) and
the on-ended seek guard (0 fails startSeconds > 0). -/
theorem parseTimestamp_malformed_zero (s : String)
    (h2 : (splitCols s.data).length ≠ 2) (h3 : (splitCols s.data).length ≠ 3) :
    parseTimestamp s = .num 0 ∧
    (∀ autoLoop : Bool, loopPollActive autoLoop (parseTimestamp s) = false) ∧
    (∀ autoLoop : Bool, endedLoopSeeks autoLoop (parseTimestamp s) = false) := by
  have h : parseTimestamp s = .num 0 := by
    unfold parseTimestamp
    rcases hl : splitCols s.data with - | ⟨a, - | ⟨b, - | ⟨c, - | ⟨d, rest⟩⟩⟩⟩
    · rfl
    · rfl
    · rw [hl] at h2
      simp at h2
    · rw [hl] at h3
      simp at h3
    · rfl
  refine ⟨h, ?_, ?_⟩
  · intro autoLoop
    simp [h, loopPollActive, JSNum.truthy]
  · intro autoLoop
    simp [h, endedLoopSeeks, JSNum.gtZero]

/-- Witness for C10: "90", "" and "1:2:3:4" all parse to 0, and a parsed 0
disables the poll guard and the ended-seek guard. -/
theorem parseTimestamp_malformed_zero_witness :
    parseTimestamp "90" = .num 0 ∧ parseTimestamp "" = .num 0 ∧
    parseTimestamp "1:2:3:4" = .num 0 ∧
    loopPollActive true (parseTimestamp "90") = false ∧
    endedLoopSeeks true (parseTimestamp "90") = false :=
  ⟨(parseTimestamp_malformed_zero "90" (by decide) (by decide)).1,
   (parseTimestamp_malformed_zero "" (by decide) (by decide)).1,
   (parseTimestamp_malformed_zero "1:2:3:4" (by decide) (by decide)).1,
   (parseTimestamp_malformed_zero "90" (by decide) (by decide)).2.1 true,
   (parseTimestamp_malformed_zero "90" (by decide) (by decide)).2.2 true⟩

end WokTalk
